import Mathlib

/-!
Verification of `lib/parse_cluster_yaml.py`: a one-shot utility that reads a
cluster job-configuration YAML document and emits shell-variable assignment
lines (`NAME=value`) for consumption by a calling shell script.

The embedding models:
* `Py` — the Python values produced by `yaml.safe_load` (None, bool, int,
  float, str, list, dict with string keys);
* `shell_escape` / `shlexQuote` — the escaping pipeline (`shlex.quote`);
* `flattenLines` / `parse_cluster_yaml` — the flattening algorithm;
* `runMain` — the `__main__` block, over an abstract load outcome
  (`LoadResult`) standing for `open` + `yaml.safe_load`;
* `shEval` — a conservative model of POSIX shell word evaluation, used to
  state the quoting round-trip property.

Python exceptions that the script does not catch (`AttributeError`,
`TypeError`) are modelled with `Except PyErr`.
-/

namespace ClusterYaml

/-- Error values for Python exceptions that `parse_cluster_yaml` can raise and
`__main__` does not catch. The string is the exception message. -/
inductive PyErr where
  | attributeError (msg : String)
  | typeError (msg : String)
deriving DecidableEq, Repr

/-- Python values as returned by `yaml.safe_load`.

Floats: YAML floats are written as decimal literals; `float m e` stands for
the value `m / 10^e` as written (e.g. `0.50` is `float 50 2`). CPython stores
the nearest binary64 and `str()` prints the shortest decimal that round-trips,
which for every literal of up to 15 significant digits is exactly the shortest
decimal form of the written value; `pyFloatStr` below computes that form, so
the model agrees with CPython on all such literals.

Dict keys are strings (YAML mappings in this program's documents use scalar
string keys); duplicate keys do not arise from `yaml.safe_load`. -/
inductive Py where
  | none
  | bool (b : Bool)
  | int (n : Int)
  | float (m : Int) (e : Nat)
  | str (s : String)
  | list (xs : List Py)
  | dict (kvs : List (String × Py))

/-- Python's type name, as it appears in exception messages. -/
def pyTypeName : Py → String
  | Py.none => "NoneType"
  | Py.bool _ => "bool"
  | Py.int _ => "int"
  | Py.float _ _ => "float"
  | Py.str _ => "str"
  | Py.list _ => "list"
  | Py.dict _ => "dict"

/-- Strip trailing decimal zeros: reduce `m / 10^e` so that either `e = 0` or
`10` does not divide `m`. Mirrors the normalisation CPython's shortest
round-trip float printing performs on the decimal value. -/
def floatReduce : Int → Nat → Int × Nat
  | m, 0 => (m, 0)
  | m, Nat.succ e => if m % 10 == 0 then floatReduce (m / 10) e else (m, Nat.succ e)

/-- Left-pad a digit string with zeros up to length `e`. -/
def padZeros (s : String) (e : Nat) : String :=
  String.mk (List.replicate (e - s.length) '0') ++ s

/-- `str()` of a Python float: the shortest decimal form of the value, always
with a decimal point (`str(1.00) = "1.0"`, `str(0.50) = "0.5"`). -/
def pyFloatStr (m : Int) (e : Nat) : String :=
  let p := floatReduce m e
  let sign : String := if p.1 < 0 then "-" else ""
  let a : Nat := p.1.natAbs
  if p.2 == 0 then
    sign ++ Nat.repr a ++ ".0"
  else
    let ip : Nat := a / 10 ^ p.2
    let fp : Nat := a % 10 ^ p.2
    sign ++ Nat.repr ip ++ "." ++ padZeros (Nat.repr fp) p.2

mutual

/-- Python `repr()` restricted to what this program can ever print: scalars
exactly as CPython renders them; for containers the simple comma-space form
(CPython's quote-choice heuristic for nested strings is not modelled — no
claim exercises container rendering). -/
def pyRepr : Py → String
  | Py.none => "None"
  | Py.bool b => if b then "True" else "False"
  | Py.int n => Int.repr n
  | Py.float m e => pyFloatStr m e
  | Py.str s => "\x27" ++ s ++ "\x27"
  | Py.list xs => "[" ++ String.intercalate ", " (pyReprList xs) ++ "]"
  | Py.dict kvs =>
      "\x7b" ++ String.intercalate ", " (pyReprDict kvs) ++ "\x7d"

/-- `repr` of each element of a list value. -/
def pyReprList : List Py → List String
  | [] => []
  | x :: xs => pyRepr x :: pyReprList xs

/-- `repr` of each `key: value` entry of a dict value. -/
def pyReprDict : List (String × Py) → List String
  | [] => []
  | (k, v) :: kvs => ("\x27" ++ k ++ "\x27: " ++ pyRepr v) :: pyReprDict kvs

end

/-- Python `str()`: identity on strings, `repr` otherwise (for the value
forms reachable here). -/
def pyStr : Py → String
  | Py.str s => s
  | v => pyRepr v

/-- Python truthiness (`if project:`): `None`, `False`, zero and empty
containers/strings are falsy. -/
def pyTruthy : Py → Bool
  | Py.none => false
  | Py.bool b => b
  | Py.int n => n != 0
  | Py.float m _ => m != 0
  | Py.str s => s != ""
  | Py.list xs => !xs.isEmpty
  | Py.dict kvs => !kvs.isEmpty

/-- `d.get(k, default)` on a parsed value: succeeds only on dicts, any other
receiver raises `AttributeError` (as in CPython: only `dict` has `.get`). -/
def pyGet (v : Py) (k : String) (d : Py) : Except PyErr Py :=
  match v with
  | Py.dict kvs => Except.ok ((kvs.lookup k).getD d)
  | v => Except.error (PyErr.attributeError
      ("\x27" ++ pyTypeName v ++ "\x27 object has no attribute \x27get\x27"))

/-- `len(v)`: defined for sequences, strings and mappings; raises `TypeError`
otherwise (e.g. `len(None)`). -/
def pyLen (v : Py) : Except PyErr Nat :=
  match v with
  | Py.list xs => Except.ok xs.length
  | Py.str s => Except.ok s.length
  | Py.dict kvs => Except.ok kvs.length
  | v => Except.error (PyErr.typeError
      ("object of type \x27" ++ pyTypeName v ++ "\x27 has no len()"))

/-- The elements iteration (`for i, job in enumerate(jobs)`) yields: list
elements, one-character strings for a string, keys for a dict. Only reached
after `len` succeeded, so the catch-all is unreachable in `flattenLines`. -/
def pyElems : Py → List Py
  | Py.list xs => xs
  | Py.str s => s.data.map (fun c => Py.str (String.mk [c]))
  | Py.dict kvs => kvs.map (fun kv => Py.str kv.1)
  | _ => []

/-- One item of a joined sequence: must be a `str`, else `TypeError`. -/
def joinItem (x : Py) : Except PyErr String :=
  match x with
  | Py.str s => Except.ok s
  | x => Except.error (PyErr.typeError
      ("sequence item: expected str instance, " ++ pyTypeName x ++ " found"))

/-- `sep.join(v)`: every item of a list must be a `str`; a dict joins its
keys; a string joins its characters; anything else raises `TypeError`. -/
def pyJoin (sep : String) (v : Py) : Except PyErr String :=
  match v with
  | Py.list xs => do
      let ss ← xs.mapM joinItem
      Except.ok (String.intercalate sep ss)
  | Py.str s => Except.ok (String.intercalate sep (s.data.map (fun c => String.mk [c])))
  | Py.dict kvs => Except.ok (String.intercalate sep (kvs.map (fun kv => kv.1)))
  | v => Except.error (PyErr.typeError
      ("can only join an iterable, not " ++ pyTypeName v))

/-- Python `str.lower()`, character by character (the program only lowercases
`"True"`/`"False"` and whatever string the user supplied for a boolean
field; non-ASCII case folding differences from CPython are not exercised). -/
def strLower (s : String) : String :=
  String.mk (s.data.map Char.toLower)

/-- The characters `shlex.quote` leaves unquoted: ASCII letters and digits
together with underscore, at-sign, percent, plus, equals, colon, comma, dot,
slash and hyphen (the complement of CPython's `shlex._find_unsafe`, which
uses `re.ASCII`). -/
def isSafeChar (c : Char) : Bool :=
  c.isAlphanum || c ∈ ['_', '@', '%', '+', '=', ':', ',', '.', '/', '-']

/-- `shlex.quote(s)`: empty strings become `''`; strings of safe characters
pass through unchanged; otherwise wrap in single quotes, replacing each
single quote by the five characters quote, double-quote, quote, double-quote,
quote. -/
def shlexQuote (s : String) : String :=
  if s = "" then "\x27\x27"
  else if s.data.all isSafeChar then s
  else
    "\x27" ++
      String.mk (s.data.flatMap
        (fun c => if c = '\x27' then ['\x27', '"', '\x27', '"', '\x27'] else [c])) ++
    "\x27"

/-- `shell_escape(value)`: `None` becomes the empty token; any other value is
converted with `str()` and passed through `shlex.quote`. -/
def shell_escape (v : Py) : String :=
  match v with
  | Py.none => ""
  | v => shlexQuote (pyStr v)

/-- The loop body for one job: the six `JOB_<i>_*` lines, in source order.
`depends_on` is normalised (a bare string becomes a one-element list) and
comma-joined. Raises `AttributeError` when the job is not a mapping, and
`TypeError` when a dependency item is not a string. -/
def jobBlock (i : Nat) (job : Py) : Except PyErr (List String) := do
  let name ← pyGet job "name" (Py.str ("job_" ++ Nat.repr i))
  let script ← pyGet job "script" (Py.str "")
  let ty ← pyGet job "type" (Py.str "sbatch")
  let arr ← pyGet job "array" (Py.str "")
  let dependsRaw ← pyGet job "depends_on" (Py.list [])
  let depends := match dependsRaw with
    | Py.str s => Py.list [Py.str s]
    | v => v
  let dep ← pyJoin "," depends
  let extra ← pyGet job "sbatch_flags" (Py.str "")
  Except.ok
    [ "JOB_" ++ Nat.repr i ++ "_NAME=" ++ shell_escape name,
      "JOB_" ++ Nat.repr i ++ "_SCRIPT=" ++ shell_escape script,
      "JOB_" ++ Nat.repr i ++ "_TYPE=" ++ shell_escape ty,
      "JOB_" ++ Nat.repr i ++ "_ARRAY=" ++ shell_escape arr,
      "JOB_" ++ Nat.repr i ++ "_DEPENDS_ON=" ++ shell_escape (Py.str dep),
      "JOB_" ++ Nat.repr i ++ "_SBATCH_FLAGS=" ++ shell_escape extra ]

/-- The seven `CLAUDE_*` lines. Booleans go through `str(...).lower()`; the
two budget defaults are the strings `"0.50"` and `"1.00"`. Raises
`AttributeError` when the claude value is not a mapping. -/
def claudeBlock (claude : Py) : Except PyErr (List String) := do
  let enabled ← pyGet claude "enabled" (Py.bool false)
  let autoFix ← pyGet claude "auto_fix" (Py.bool false)
  let maxCycles ← pyGet claude "max_fix_cycles" (Py.int 3)
  let reviewModel ← pyGet claude "review_model" (Py.str "sonnet")
  let fixModel ← pyGet claude "fix_model" (Py.str "opus")
  let reviewBudget ← pyGet claude "review_budget" (Py.str "0.50")
  let fixBudget ← pyGet claude "fix_budget" (Py.str "1.00")
  Except.ok
    [ "CLAUDE_ENABLED=" ++ shell_escape (Py.str (strLower (pyStr enabled))),
      "CLAUDE_AUTO_FIX=" ++ shell_escape (Py.str (strLower (pyStr autoFix))),
      "CLAUDE_MAX_FIX_CYCLES=" ++ shell_escape maxCycles,
      "CLAUDE_REVIEW_MODEL=" ++ shell_escape reviewModel,
      "CLAUDE_FIX_MODEL=" ++ shell_escape fixModel,
      "CLAUDE_REVIEW_BUDGET=" ++ shell_escape reviewBudget,
      "CLAUDE_FIX_BUDGET=" ++ shell_escape fixBudget ]

/-- The `for i, job in enumerate(jobs)` loop: the block of six lines for each
job in document order, indices counting up from `i`, stopping at the first
exception. -/
def jobBlocksFrom (i : Nat) : List Py → Except PyErr (List (List String))
  | [] => Except.ok []
  | j :: js => do
      let b ← jobBlock i j
      let bs ← jobBlocksFrom (i + 1) js
      Except.ok (b :: bs)

/-- The project part: `if project:` gates the `PROJECT_NAME` line on the
truthiness of the project value; the name defaults to the empty string. -/
def projectLines (project : Py) : Except PyErr (List String) :=
  if pyTruthy project then do
    let nm ← pyGet project "name" (Py.str "")
    Except.ok ["PROJECT_NAME=" ++ shell_escape nm]
  else Except.ok []

/-- The flattening algorithm of `parse_cluster_yaml`, after the document has
been loaded: build the `lines` list. Project part first (gated by `if
project:`), then `NUM_JOBS` and the per-job blocks in document order, then
the claude block. -/
def flattenLines (config : Py) : Except PyErr (List String) := do
  let project ← pyGet config "project" (Py.dict [])
  let projLines ← projectLines project
  let jobs ← pyGet config "jobs" (Py.list [])
  let n ← pyLen jobs
  let blocks ← jobBlocksFrom 0 (pyElems jobs)
  let claude ← pyGet config "claude" (Py.dict [])
  let claudeLs ← claudeBlock claude
  Except.ok (projLines ++ ("NUM_JOBS=" ++ Nat.repr n) :: blocks.flatten ++ claudeLs)

/-- `config.get(k, d)` for a known mapping, as a total function. -/
def pyGetD (kvs : List (String × Py)) (k : String) (d : Py) : Py :=
  (kvs.lookup k).getD d

/-- `parse_cluster_yaml` after the load: `"\n".join(lines)` — newline
separators, no trailing newline. -/
def parse_cluster_yaml (config : Py) : Except PyErr String :=
  (flattenLines config).map (String.intercalate "\n")

/-- Outcome of `open(path)` + `yaml.safe_load(f)`, the external I/O and
parser boundary: the file may be missing (`FileNotFoundError`), the content
may be syntactically malformed (`yaml.YAMLError` with the parser's message),
or a value is produced. -/
inductive LoadResult where
  | notFound
  | yamlError (msg : String)
  | value (v : Py)

/-- Result of running the command: a clean exit (via `sys.exit` or normal
termination) with captured stdout/stderr, or an interpreter crash from an
exception no handler catches (CPython then prints a traceback and exits 1);
`crashed` carries whatever stdout was produced before the crash. -/
inductive MainResult where
  | exited (code : Nat) (stdout : String) (stderr : String)
  | crashed (e : PyErr) (stdout : String)
deriving DecidableEq, Repr

/-- The `__main__` block: argument check, then `parse_cluster_yaml` with
`FileNotFoundError` and `yaml.YAMLError` handlers; `print` appends a
newline. Any other exception propagates (`crashed`). -/
def runMain (argv : List String) (r : LoadResult) : MainResult :=
  match argv with
  | [_, path] =>
      match r with
      | LoadResult.notFound =>
          MainResult.exited 1 "" ("Error: " ++ path ++ " not found\n")
      | LoadResult.yamlError m =>
          MainResult.exited 1 "" ("Error parsing YAML: " ++ m ++ "\n")
      | LoadResult.value v =>
          match parse_cluster_yaml v with
          | Except.ok out => MainResult.exited 0 (out ++ "\n") ""
          | Except.error e => MainResult.crashed e ""
  | argv =>
      MainResult.exited 1 "" ("Usage: " ++ argv.headD "" ++ " <cluster.yaml>\n")

/-- Quoting state of the shell word scanner: outside quotes, inside single
quotes, inside double quotes. -/
inductive ShMode where
  | norm
  | single
  | double

/-- Conservative model of how a POSIX-compatible shell evaluates the value
word of a variable assignment. `some cs` means the shell assigns exactly
`cs`; `none` means the word uses a construct outside the modelled fragment
(an unquoted character that may have special meaning, an expansion character
inside double quotes, or an unterminated quote). Unquoted characters are
taken literally only when `isSafeChar` holds — exactly the characters with
no special meaning that `shlex.quote` may leave unquoted; single-quoted
segments take every character literally up to the closing quote;
double-quoted segments take every character literally except `$`,
backslash and backquote (which start expansions or escapes). -/
def shEval : ShMode → List Char → Option (List Char)
  | ShMode.norm, [] => some []
  | ShMode.norm, c :: cs =>
      if c = '\x27' then shEval ShMode.single cs
      else if c = '"' then shEval ShMode.double cs
      else if isSafeChar c then (shEval ShMode.norm cs).map (fun t => c :: t)
      else none
  | ShMode.single, [] => none
  | ShMode.single, c :: cs =>
      if c = '\x27' then shEval ShMode.norm cs
      else (shEval ShMode.single cs).map (fun t => c :: t)
  | ShMode.double, [] => none
  | ShMode.double, c :: cs =>
      if c = '"' then shEval ShMode.norm cs
      else if c = '$' || c = '\\' || c = Char.ofNat 96 then none
      else (shEval ShMode.double cs).map (fun t => c :: t)

/-- Shell evaluation of a whole value token. -/
def shWordEval (t : String) : Option String :=
  (shEval ShMode.norm t.data).map String.mk

/-- The character transformation `shlex.quote` applies inside the quoted
form: each single quote becomes the five characters quote, double-quote,
quote, double-quote, quote. -/
def sq (cs : List Char) : List Char :=
  cs.flatMap (fun c => if c = '\x27' then ['\x27', '"', '\x27', '"', '\x27'] else [c])

lemma isSafeChar_ne_quote {c : Char} (h : isSafeChar c = true) :
    c ≠ '\x27' ∧ c ≠ '"' := by
  constructor <;> rintro rfl <;> exact absurd h (by decide)

lemma shEval_norm_safe {cs : List Char} (h : cs.all isSafeChar) :
    shEval ShMode.norm cs = some cs := by
  induction cs with
  | nil => rfl
  | cons c cs ih =>
      simp only [List.all_cons, Bool.and_eq_true] at h
      obtain ⟨h1, h2⟩ := isSafeChar_ne_quote h.1
      simp [shEval, h1, h2, h.1, ih h.2]

lemma shEval_single_cons_quote (cs : List Char) :
    shEval ShMode.single ('\x27' :: cs) = shEval ShMode.norm cs := by simp [shEval]

lemma shEval_single_cons {c : Char} (h : c ≠ '\x27') (cs : List Char) :
    shEval ShMode.single (c :: cs) =
      (shEval ShMode.single cs).map (fun t => c :: t) := by simp [shEval, h]

lemma shEval_norm_cons_quote (cs : List Char) :
    shEval ShMode.norm ('\x27' :: cs) = shEval ShMode.single cs := by simp [shEval]

lemma shEval_norm_cons_dquote (cs : List Char) :
    shEval ShMode.norm ('"' :: cs) = shEval ShMode.double cs := by simp [shEval]

lemma shEval_double_cons_dquote (cs : List Char) :
    shEval ShMode.double ('"' :: cs) = shEval ShMode.norm cs := by simp [shEval]

lemma shEval_double_cons_quote (cs : List Char) :
    shEval ShMode.double ('\x27' :: cs) =
      (shEval ShMode.double cs).map (fun t => '\x27' :: t) := by simp [shEval]

lemma sq_cons (c : Char) (cs : List Char) :
    sq (c :: cs) =
      (if c = '\x27' then ['\x27', '"', '\x27', '"', '\x27'] else [c]) ++ sq cs := by
  simp [sq, List.flatMap_cons]

lemma shEval_single_sq (cs rest : List Char) :
    shEval ShMode.single (sq cs ++ '\x27' :: rest) =
      (shEval ShMode.norm rest).map (fun t => cs ++ t) := by
  induction cs with
  | nil =>
      simp [sq, shEval]
  | cons c cs ih =>
      rw [sq_cons]
      by_cases hc : c = '\x27'
      · subst hc
        rw [if_pos rfl]
        simp only [List.cons_append, List.nil_append]
        rw [shEval_single_cons_quote, shEval_norm_cons_dquote, shEval_double_cons_quote,
          shEval_double_cons_dquote, shEval_norm_cons_quote, ih]
        cases shEval ShMode.norm rest <;> rfl
      · rw [if_neg hc]
        simp only [List.cons_append, List.nil_append]
        rw [shEval_single_cons hc, ih]
        cases shEval ShMode.norm rest <;> rfl

/-- Round-trip at the token level: a POSIX shell evaluating the token
`shlex.quote(s)` recovers exactly `s`. -/
lemma shlexQuote_roundTrip (s : String) : shWordEval (shlexQuote s) = some s := by
  rcases s with ⟨cs⟩
  show shWordEval (shlexQuote (String.mk cs)) = some (String.mk cs)
  rw [shlexQuote]
  by_cases h0 : String.mk cs = ""
  · rw [if_pos h0]
    obtain rfl : cs = [] := by
      have := congrArg String.data h0
      simpa using this
    rfl
  · rw [if_neg h0]
    by_cases h1 : cs.all isSafeChar
    · have : (String.mk cs).data = cs := rfl
      rw [if_pos (this ▸ h1)]
      simp [shWordEval, shEval_norm_safe h1]
    · have hdata : (String.mk cs).data = cs := rfl
      rw [if_neg (by simpa [hdata] using h1)]
      have hq : ("\x27" ++ String.mk ((String.mk cs).data.flatMap
          (fun c => if c = '\x27' then ['\x27', '"', '\x27', '"', '\x27'] else [c])) ++
          "\x27").data = '\x27' :: (sq cs ++ '\x27' :: []) := by
        simp [String.data_append, sq, hdata]
      rw [shWordEval, hq]
      have : shEval ShMode.norm ('\x27' :: (sq cs ++ '\x27' :: [])) =
          shEval ShMode.single (sq cs ++ '\x27' :: []) := by
        simp [shEval]
      rw [this, shEval_single_sq]
      simp [shEval]

/-- Boolean prefix test on character lists. -/
def chStarts : List Char → List Char → Bool
  | [], _ => true
  | _ :: _, [] => false
  | p :: ps, c :: cs => p == c && chStarts ps cs

/-- `lineStarts p s`: the line `s` begins with the text `p`. -/
def lineStarts (p s : String) : Bool :=
  chStarts p.data s.data

lemma chStarts_append_self : ∀ (ps ts : List Char), chStarts ps (ps ++ ts) = true
  | [], _ => rfl
  | p :: ps, ts => by simp [chStarts, chStarts_append_self ps ts]

lemma lineStarts_append_self (p t : String) : lineStarts p (p ++ t) = true := by
  have : (p ++ t).data = p.data ++ t.data := String.data_append p t
  rw [lineStarts, this]
  exact chStarts_append_self p.data t.data

/-- Inversion of `Except` bind on a successful result. -/
lemma bind_ok {α β : Type} {x : Except PyErr α} {f : α → Except PyErr β} {b : β}
    (h : (x >>= f) = Except.ok b) : ∃ a, x = Except.ok a ∧ f a = Except.ok b := by
  cases x with
  | error e => simp [Bind.bind, Except.bind] at h
  | ok a => exact ⟨a, rfl, by simpa [Bind.bind, Except.bind] using h⟩

/-- A successful `jobBlock` is exactly the six `JOB_<i>_*` lines, in source
order. -/
lemma jobBlock_ok {i : Nat} {job : Py} {ls : List String}
    (h : jobBlock i job = Except.ok ls) :
    ∃ v1 v2 v3 v4 v5 v6 : String,
      ls = ["JOB_" ++ Nat.repr i ++ "_NAME=" ++ v1,
            "JOB_" ++ Nat.repr i ++ "_SCRIPT=" ++ v2,
            "JOB_" ++ Nat.repr i ++ "_TYPE=" ++ v3,
            "JOB_" ++ Nat.repr i ++ "_ARRAY=" ++ v4,
            "JOB_" ++ Nat.repr i ++ "_DEPENDS_ON=" ++ v5,
            "JOB_" ++ Nat.repr i ++ "_SBATCH_FLAGS=" ++ v6] := by
  cases job with
  | dict kvs =>
      rw [jobBlock] at h
      obtain ⟨name, _, h⟩ := bind_ok h
      obtain ⟨script, _, h⟩ := bind_ok h
      obtain ⟨ty, _, h⟩ := bind_ok h
      obtain ⟨arr, _, h⟩ := bind_ok h
      obtain ⟨dependsRaw, _, h⟩ := bind_ok h
      obtain ⟨dep, _, h⟩ := bind_ok h
      obtain ⟨extra, _, h⟩ := bind_ok h
      exact ⟨_, _, _, _, _, _, (Except.ok.inj h).symm⟩
  | none => simp [jobBlock, pyGet, Bind.bind, Except.bind] at h
  | bool b => simp [jobBlock, pyGet, Bind.bind, Except.bind] at h
  | int n => simp [jobBlock, pyGet, Bind.bind, Except.bind] at h
  | float m e => simp [jobBlock, pyGet, Bind.bind, Except.bind] at h
  | str s => simp [jobBlock, pyGet, Bind.bind, Except.bind] at h
  | list xs => simp [jobBlock, pyGet, Bind.bind, Except.bind] at h

/-- A successful `claudeBlock` is exactly the seven `CLAUDE_*` lines, in
source order. -/
lemma claudeBlock_ok {claude : Py} {ls : List String}
    (h : claudeBlock claude = Except.ok ls) :
    ∃ w1 w2 w3 w4 w5 w6 w7 : String,
      ls = ["CLAUDE_ENABLED=" ++ w1,
            "CLAUDE_AUTO_FIX=" ++ w2,
            "CLAUDE_MAX_FIX_CYCLES=" ++ w3,
            "CLAUDE_REVIEW_MODEL=" ++ w4,
            "CLAUDE_FIX_MODEL=" ++ w5,
            "CLAUDE_REVIEW_BUDGET=" ++ w6,
            "CLAUDE_FIX_BUDGET=" ++ w7] := by
  cases claude with
  | dict kvs =>
      rw [claudeBlock] at h
      obtain ⟨a1, _, h⟩ := bind_ok h
      obtain ⟨a2, _, h⟩ := bind_ok h
      obtain ⟨a3, _, h⟩ := bind_ok h
      obtain ⟨a4, _, h⟩ := bind_ok h
      obtain ⟨a5, _, h⟩ := bind_ok h
      obtain ⟨a6, _, h⟩ := bind_ok h
      obtain ⟨a7, _, h⟩ := bind_ok h
      exact ⟨_, _, _, _, _, _, _, (Except.ok.inj h).symm⟩
  | none => simp [claudeBlock, pyGet, Bind.bind, Except.bind] at h
  | bool b => simp [claudeBlock, pyGet, Bind.bind, Except.bind] at h
  | int n => simp [claudeBlock, pyGet, Bind.bind, Except.bind] at h
  | float m e => simp [claudeBlock, pyGet, Bind.bind, Except.bind] at h
  | str s => simp [claudeBlock, pyGet, Bind.bind, Except.bind] at h
  | list xs => simp [claudeBlock, pyGet, Bind.bind, Except.bind] at h

lemma jobBlocksFrom_ok_length :
    ∀ {i : Nat} {js : List Py} {blocks : List (List String)},
      jobBlocksFrom i js = Except.ok blocks → blocks.length = js.length := by
  intro i js
  induction js generalizing i with
  | nil => intro blocks h; cases (Except.ok.inj h); rfl
  | cons j js ih =>
      intro blocks h
      rw [jobBlocksFrom] at h
      obtain ⟨b, _, h⟩ := bind_ok h
      obtain ⟨bs, hbs, h⟩ := bind_ok h
      cases (Except.ok.inj h)
      simp [ih hbs]

/-- The `i`-th block of a successful run of the job loop is the successful
`jobBlock` of the `i`-th job, at emitted index `start + i`. -/
lemma jobBlocksFrom_ok_get :
    ∀ {start : Nat} {js : List Py} {blocks : List (List String)},
      jobBlocksFrom start js = Except.ok blocks →
      ∀ i (hi : i < js.length) (hi' : i < blocks.length),
        jobBlock (start + i) (js.get ⟨i, hi⟩) = Except.ok (blocks.get ⟨i, hi'⟩) := by
  intro start js
  induction js generalizing start with
  | nil => intro blocks h i hi; exact absurd hi (by simp)
  | cons j js ih =>
      intro blocks h i hi hi'
      rw [jobBlocksFrom] at h
      obtain ⟨b, hb, h⟩ := bind_ok h
      obtain ⟨bs, hbs, h⟩ := bind_ok h
      cases (Except.ok.inj h)
      cases i with
      | zero => exact hb
      | succ i =>
          have h1 : i < js.length := Nat.lt_of_succ_lt_succ hi
          have h2 : i < bs.length := Nat.lt_of_succ_lt_succ hi'
          have hrec := ih hbs i h1 h2
          have hidx : start + 1 + i = start + (i + 1) := by omega
          rw [hidx] at hrec
          exact hrec

lemma pyElems_length {v : Py} {n : Nat} (h : pyLen v = Except.ok n) :
    (pyElems v).length = n := by
  cases v with
  | list xs => rw [pyLen] at h; rw [pyElems, Except.ok.inj h]
  | str s =>
      rw [pyLen] at h
      rw [pyElems, List.length_map, ← Except.ok.inj h]
      rfl
  | dict kvs => rw [pyLen] at h; rw [pyElems, List.length_map, Except.ok.inj h]
  | none => exact Except.noConfusion h
  | bool b => exact Except.noConfusion h
  | int m => exact Except.noConfusion h
  | float m e => exact Except.noConfusion h

/-- Successful flattening of a mapping document decomposes into the project
part (gated by truthiness of the `project` value), the `NUM_JOBS` line, the
concatenated job blocks and the claude block, in that order. -/
lemma flattenLines_dict_ok {kvs : List (String × Py)} {out : List String}
    (h : flattenLines (Py.dict kvs) = Except.ok out) :
    ∃ (projLs : List String) (n : Nat) (blocks : List (List String))
      (claudeLs : List String),
      pyLen (pyGetD kvs "jobs" (Py.list [])) = Except.ok n ∧
      jobBlocksFrom 0 (pyElems (pyGetD kvs "jobs" (Py.list []))) = Except.ok blocks ∧
      claudeBlock (pyGetD kvs "claude" (Py.dict [])) = Except.ok claudeLs ∧
      out = projLs ++ (("NUM_JOBS=" ++ Nat.repr n) :: (blocks.flatten ++ claudeLs)) ∧
      (if pyTruthy (pyGetD kvs "project" (Py.dict []))
        then ∃ nm, projLs = ["PROJECT_NAME=" ++ shell_escape nm]
        else projLs = []) := by
  rw [flattenLines] at h
  obtain ⟨project, hp, h⟩ := bind_ok h
  cases (Except.ok.inj hp : pyGetD kvs "project" (Py.dict []) = project)
  obtain ⟨projLs, hprojLs, h⟩ := bind_ok h
  obtain ⟨jobs, hj, h⟩ := bind_ok h
  cases (Except.ok.inj hj : pyGetD kvs "jobs" (Py.list []) = jobs)
  obtain ⟨n, hn, h⟩ := bind_ok h
  obtain ⟨blocks, hblocks, h⟩ := bind_ok h
  obtain ⟨claude, hc, h⟩ := bind_ok h
  cases (Except.ok.inj hc : pyGetD kvs "claude" (Py.dict []) = claude)
  obtain ⟨claudeLs, hcl, h⟩ := bind_ok h
  have hout : out = projLs ++ (("NUM_JOBS=" ++ Nat.repr n) ::
      (blocks.flatten ++ claudeLs)) := by
    rw [← List.cons_append, ← List.append_assoc]
    exact (Except.ok.inj h).symm
  refine ⟨projLs, n, blocks, claudeLs, hn, hblocks, hcl, hout, ?_⟩
  rw [projectLines] at hprojLs
  by_cases ht : pyTruthy (pyGetD kvs "project" (Py.dict [])) = true
  · rw [if_pos ht]
    rw [if_pos ht] at hprojLs
    obtain ⟨nm, _, h2⟩ := bind_ok hprojLs
    exact ⟨nm, (Except.ok.inj h2).symm⟩
  · rw [if_neg ht]
    rw [if_neg ht] at hprojLs
    exact (Except.ok.inj hprojLs).symm

lemma countP_flatten_blocks {p : String → Bool} {k : Nat} :
    ∀ {blocks : List (List String)},
      (∀ b ∈ blocks, List.countP p b = k) →
      List.countP p blocks.flatten = k * blocks.length := by
  intro blocks
  induction blocks with
  | nil => intro _; simp
  | cons b bs ih =>
      intro h
      rw [List.flatten_cons, List.countP_append, h b (by simp),
        ih (fun c hc => h c (by simp [hc])), List.length_cons]
      ring

/-- `countP` facts for one job block, for each first-character family. -/
lemma countP_job_J (i : Nat) (v1 v2 v3 v4 v5 v6 : String) :
    List.countP (fun s => lineStarts "JOB_" s)
      ["JOB_" ++ Nat.repr i ++ "_NAME=" ++ v1,
       "JOB_" ++ Nat.repr i ++ "_SCRIPT=" ++ v2,
       "JOB_" ++ Nat.repr i ++ "_TYPE=" ++ v3,
       "JOB_" ++ Nat.repr i ++ "_ARRAY=" ++ v4,
       "JOB_" ++ Nat.repr i ++ "_DEPENDS_ON=" ++ v5,
       "JOB_" ++ Nat.repr i ++ "_SBATCH_FLAGS=" ++ v6] = 6 := rfl

lemma countP_job_N (i : Nat) (v1 v2 v3 v4 v5 v6 : String) :
    List.countP (fun s => lineStarts "NUM_JOBS=" s)
      ["JOB_" ++ Nat.repr i ++ "_NAME=" ++ v1,
       "JOB_" ++ Nat.repr i ++ "_SCRIPT=" ++ v2,
       "JOB_" ++ Nat.repr i ++ "_TYPE=" ++ v3,
       "JOB_" ++ Nat.repr i ++ "_ARRAY=" ++ v4,
       "JOB_" ++ Nat.repr i ++ "_DEPENDS_ON=" ++ v5,
       "JOB_" ++ Nat.repr i ++ "_SBATCH_FLAGS=" ++ v6] = 0 := rfl

lemma countP_job_C (i : Nat) (v1 v2 v3 v4 v5 v6 : String) :
    List.countP (fun s => lineStarts "CLAUDE_" s)
      ["JOB_" ++ Nat.repr i ++ "_NAME=" ++ v1,
       "JOB_" ++ Nat.repr i ++ "_SCRIPT=" ++ v2,
       "JOB_" ++ Nat.repr i ++ "_TYPE=" ++ v3,
       "JOB_" ++ Nat.repr i ++ "_ARRAY=" ++ v4,
       "JOB_" ++ Nat.repr i ++ "_DEPENDS_ON=" ++ v5,
       "JOB_" ++ Nat.repr i ++ "_SBATCH_FLAGS=" ++ v6] = 0 := rfl

lemma countP_job_P (i : Nat) (v1 v2 v3 v4 v5 v6 : String) :
    List.countP (fun s => lineStarts "PROJECT_NAME=" s)
      ["JOB_" ++ Nat.repr i ++ "_NAME=" ++ v1,
       "JOB_" ++ Nat.repr i ++ "_SCRIPT=" ++ v2,
       "JOB_" ++ Nat.repr i ++ "_TYPE=" ++ v3,
       "JOB_" ++ Nat.repr i ++ "_ARRAY=" ++ v4,
       "JOB_" ++ Nat.repr i ++ "_DEPENDS_ON=" ++ v5,
       "JOB_" ++ Nat.repr i ++ "_SBATCH_FLAGS=" ++ v6] = 0 := rfl

/-- `countP` facts for the claude block, for each first-character family. -/
lemma countP_claude_C (w1 w2 w3 w4 w5 w6 w7 : String) :
    List.countP (fun s => lineStarts "CLAUDE_" s)
      ["CLAUDE_ENABLED=" ++ w1, "CLAUDE_AUTO_FIX=" ++ w2,
       "CLAUDE_MAX_FIX_CYCLES=" ++ w3, "CLAUDE_REVIEW_MODEL=" ++ w4,
       "CLAUDE_FIX_MODEL=" ++ w5, "CLAUDE_REVIEW_BUDGET=" ++ w6,
       "CLAUDE_FIX_BUDGET=" ++ w7] = 7 := rfl

lemma countP_claude_J (w1 w2 w3 w4 w5 w6 w7 : String) :
    List.countP (fun s => lineStarts "JOB_" s)
      ["CLAUDE_ENABLED=" ++ w1, "CLAUDE_AUTO_FIX=" ++ w2,
       "CLAUDE_MAX_FIX_CYCLES=" ++ w3, "CLAUDE_REVIEW_MODEL=" ++ w4,
       "CLAUDE_FIX_MODEL=" ++ w5, "CLAUDE_REVIEW_BUDGET=" ++ w6,
       "CLAUDE_FIX_BUDGET=" ++ w7] = 0 := rfl

lemma countP_claude_N (w1 w2 w3 w4 w5 w6 w7 : String) :
    List.countP (fun s => lineStarts "NUM_JOBS=" s)
      ["CLAUDE_ENABLED=" ++ w1, "CLAUDE_AUTO_FIX=" ++ w2,
       "CLAUDE_MAX_FIX_CYCLES=" ++ w3, "CLAUDE_REVIEW_MODEL=" ++ w4,
       "CLAUDE_FIX_MODEL=" ++ w5, "CLAUDE_REVIEW_BUDGET=" ++ w6,
       "CLAUDE_FIX_BUDGET=" ++ w7] = 0 := rfl

lemma countP_claude_P (w1 w2 w3 w4 w5 w6 w7 : String) :
    List.countP (fun s => lineStarts "PROJECT_NAME=" s)
      ["CLAUDE_ENABLED=" ++ w1, "CLAUDE_AUTO_FIX=" ++ w2,
       "CLAUDE_MAX_FIX_CYCLES=" ++ w3, "CLAUDE_REVIEW_MODEL=" ++ w4,
       "CLAUDE_FIX_MODEL=" ++ w5, "CLAUDE_REVIEW_BUDGET=" ++ w6,
       "CLAUDE_FIX_BUDGET=" ++ w7] = 0 := rfl

/-- Every block of a successful run of the job loop has the six-line
`JOB_<i>_*` shape for some index `i`. -/
lemma jobBlocksFrom_mem_shape :
    ∀ {start : Nat} {js : List Py} {blocks : List (List String)},
      jobBlocksFrom start js = Except.ok blocks →
      ∀ b ∈ blocks, ∃ (i : Nat) (v1 v2 v3 v4 v5 v6 : String),
        b = ["JOB_" ++ Nat.repr i ++ "_NAME=" ++ v1,
             "JOB_" ++ Nat.repr i ++ "_SCRIPT=" ++ v2,
             "JOB_" ++ Nat.repr i ++ "_TYPE=" ++ v3,
             "JOB_" ++ Nat.repr i ++ "_ARRAY=" ++ v4,
             "JOB_" ++ Nat.repr i ++ "_DEPENDS_ON=" ++ v5,
             "JOB_" ++ Nat.repr i ++ "_SBATCH_FLAGS=" ++ v6] := by
  intro start js
  induction js generalizing start with
  | nil =>
      intro blocks h b hb
      cases (Except.ok.inj h)
      exact absurd hb (by simp)
  | cons j js ih =>
      intro blocks h b hb
      rw [jobBlocksFrom] at h
      obtain ⟨b0, hb0, h⟩ := bind_ok h
      obtain ⟨bs, hbs, h⟩ := bind_ok h
      cases (Except.ok.inj h)
      rcases List.mem_cons.mp hb with rfl | hmem
      · obtain ⟨v1, v2, v3, v4, v5, v6, hform⟩ := jobBlock_ok hb0
        exact ⟨start, v1, v2, v3, v4, v5, v6, hform⟩
      · exact ih hbs b hmem

lemma ls_N_num (t : String) :
    lineStarts "NUM_JOBS=" ("NUM_JOBS=" ++ t) = true := rfl

lemma ls_J_num (t : String) :
    lineStarts "JOB_" ("NUM_JOBS=" ++ t) = false := rfl

lemma ls_C_num (t : String) :
    lineStarts "CLAUDE_" ("NUM_JOBS=" ++ t) = false := rfl

lemma ls_P_num (t : String) :
    lineStarts "PROJECT_NAME=" ("NUM_JOBS=" ++ t) = false := rfl

/-- Line counts for a successful flattening of a mapping: exactly one
`NUM_JOBS` line carrying the job count, `6 * n` job lines, seven claude
lines, and a project line exactly when the project value is truthy. -/
lemma flatten_counts {kvs : List (String × Py)} {out : List String}
    (h : flattenLines (Py.dict kvs) = Except.ok out) :
    ∃ n : Nat,
      pyLen (pyGetD kvs "jobs" (Py.list [])) = Except.ok n ∧
      ("NUM_JOBS=" ++ Nat.repr n) ∈ out ∧
      List.countP (fun s => lineStarts "NUM_JOBS=" s) out = 1 ∧
      List.countP (fun s => lineStarts "JOB_" s) out = 6 * n ∧
      List.countP (fun s => lineStarts "CLAUDE_" s) out = 7 ∧
      List.countP (fun s => lineStarts "PROJECT_NAME=" s) out =
        (if pyTruthy (pyGetD kvs "project" (Py.dict [])) then 1 else 0) := by
  obtain ⟨projLs, n, blocks, claudeLs, hn, hblocks, hcl, hout, hproj⟩ :=
    flattenLines_dict_ok h
  obtain ⟨w1, w2, w3, w4, w5, w6, w7, hclaude⟩ := claudeBlock_ok hcl
  have hblen : blocks.length = n := by
    rw [jobBlocksFrom_ok_length hblocks, pyElems_length hn]
  have hshape := jobBlocksFrom_mem_shape hblocks
  have hblockP : ∀ (p : String → Bool) (k : Nat),
      (∀ (i : Nat) (v1 v2 v3 v4 v5 v6 : String), List.countP p
        ["JOB_" ++ Nat.repr i ++ "_NAME=" ++ v1,
         "JOB_" ++ Nat.repr i ++ "_SCRIPT=" ++ v2,
         "JOB_" ++ Nat.repr i ++ "_TYPE=" ++ v3,
         "JOB_" ++ Nat.repr i ++ "_ARRAY=" ++ v4,
         "JOB_" ++ Nat.repr i ++ "_DEPENDS_ON=" ++ v5,
         "JOB_" ++ Nat.repr i ++ "_SBATCH_FLAGS=" ++ v6] = k) →
      List.countP p blocks.flatten = k * n := by
    intro p k hk
    rw [← hblen]
    refine countP_flatten_blocks ?_
    intro b hb
    obtain ⟨i, v1, v2, v3, v4, v5, v6, rfl⟩ := hshape b hb
    exact hk i v1 v2 v3 v4 v5 v6
  have hprojP : ∀ (p : String → Bool),
      (∀ t : String, p ("PROJECT_NAME=" ++ t) = false) →
      List.countP p projLs = 0 := by
    intro p hp
    by_cases ht : pyTruthy (pyGetD kvs "project" (Py.dict [])) = true
    · rw [if_pos ht] at hproj
      obtain ⟨nm, hnm⟩ := hproj
      rw [hnm, List.countP_cons, List.countP_nil, hp]
      simp
    · rw [if_neg ht] at hproj
      rw [hproj, List.countP_nil]
  refine ⟨n, hn, ?_, ?_, ?_, ?_, ?_⟩
  · rw [hout]
    exact List.mem_append.mpr (Or.inr (List.mem_cons_self _ _))
  · rw [hout, hclaude, List.countP_append, List.countP_cons, List.countP_append,
      countP_claude_N, hblockP _ 0 countP_job_N,
      hprojP _ (fun t => rfl), ls_N_num]
    simp
  · rw [hout, hclaude, List.countP_append, List.countP_cons, List.countP_append,
      countP_claude_J, hblockP _ 6 countP_job_J,
      hprojP _ (fun t => rfl), ls_J_num]
    simp
  · rw [hout, hclaude, List.countP_append, List.countP_cons, List.countP_append,
      countP_claude_C, hblockP _ 0 countP_job_C,
      hprojP _ (fun t => rfl), ls_C_num]
    simp
  · rw [hout, hclaude, List.countP_append, List.countP_cons, List.countP_append,
      countP_claude_P, hblockP _ 0 countP_job_P, ls_P_num]
    by_cases ht : pyTruthy (pyGetD kvs "project" (Py.dict [])) = true
    · rw [if_pos ht]
      rw [if_pos ht] at hproj
      obtain ⟨nm, hnm⟩ := hproj
      rw [hnm, List.countP_cons, List.countP_nil, lineStarts_append_self]
      simp
    · rw [if_neg ht]
      rw [if_neg ht] at hproj
      rw [hproj, List.countP_nil]
      simp

/-- Claim C3: round-trip of the escaping function. For every string value —
including values containing spaces, single quotes, double quotes, dollar
signs, backquotes, or newlines — evaluating the emitted escaped token under
a POSIX-compatible shell reproduces the original string byte-for-byte; and a
`None` value escapes to the empty string, never to the literal text
`"None"`. -/
theorem c3_shell_escape_roundtrip :
    (∀ s : String, shWordEval (shell_escape (Py.str s)) = some s) ∧
    shell_escape Py.none = "" ∧
    shWordEval (shell_escape Py.none) = some "" ∧
    shell_escape Py.none ≠ "None" := by
  refine ⟨fun s => ?_, rfl, rfl, by decide⟩
  show shWordEval (shlexQuote s) = some s
  exact shlexQuote_roundTrip s

/-- Claim C1, counterexample: a document whose `project` section is present
as an empty mapping flattens successfully to output containing no
`PROJECT_NAME` line — refuting the claim that presence of the section (even
empty) makes flatten emit a `PROJECT_NAME` line. -/
theorem c1_counterexample :
    flattenLines (Py.dict [("project", Py.dict [])]) =
      Except.ok ["NUM_JOBS=0", "CLAUDE_ENABLED=false", "CLAUDE_AUTO_FIX=false",
        "CLAUDE_MAX_FIX_CYCLES=3", "CLAUDE_REVIEW_MODEL=sonnet",
        "CLAUDE_FIX_MODEL=opus", "CLAUDE_REVIEW_BUDGET=0.50",
        "CLAUDE_FIX_BUDGET=1.00"] ∧
    List.countP (fun s => lineStarts "PROJECT_NAME=" s)
      ["NUM_JOBS=0", "CLAUDE_ENABLED=false", "CLAUDE_AUTO_FIX=false",
        "CLAUDE_MAX_FIX_CYCLES=3", "CLAUDE_REVIEW_MODEL=sonnet",
        "CLAUDE_FIX_MODEL=opus", "CLAUDE_REVIEW_BUDGET=0.50",
        "CLAUDE_FIX_BUDGET=1.00"] = 0 :=
  ⟨rfl, rfl⟩

/-- Claim C1 (amended): emission of the `PROJECT_NAME` line is gated by the
truthiness of the `project` value, not by key presence: whenever flattening
a mapping succeeds, the output contains a `PROJECT_NAME` line exactly when
the `project` value is truthy (a nonempty mapping); a present-but-empty
mapping behaves like an entirely absent section — no line is emitted. -/
theorem c1_project_gated_by_truthiness :
    ∀ (kvs : List (String × Py)) (out : List String),
      flattenLines (Py.dict kvs) = Except.ok out →
      ((∃ s ∈ out, lineStarts "PROJECT_NAME=" s = true) ↔
        pyTruthy (pyGetD kvs "project" (Py.dict [])) = true) := by
  intro kvs out h
  obtain ⟨n, _, _, _, _, _, hP⟩ := flatten_counts h
  constructor
  · intro hex
    by_contra ht
    rw [if_neg ht] at hP
    obtain ⟨s, hs, hps⟩ := hex
    have hpos : 0 < List.countP (fun s => lineStarts "PROJECT_NAME=" s) out :=
      List.countP_pos_iff.mpr ⟨s, hs, hps⟩
    omega
  · intro ht
    rw [if_pos ht] at hP
    have hpos : 0 < List.countP (fun s => lineStarts "PROJECT_NAME=" s) out := by
      omega
    exact List.countP_pos_iff.mp hpos

/-- Witness for C1 (amended) at a concrete document with a nonempty project
section: the line is present, and the gate evaluates to true. -/
theorem c1_amended_witness :
    flattenLines (Py.dict [("project", Py.dict [("name", Py.str "demo")])]) =
      Except.ok ["PROJECT_NAME=demo", "NUM_JOBS=0", "CLAUDE_ENABLED=false",
        "CLAUDE_AUTO_FIX=false", "CLAUDE_MAX_FIX_CYCLES=3",
        "CLAUDE_REVIEW_MODEL=sonnet", "CLAUDE_FIX_MODEL=opus",
        "CLAUDE_REVIEW_BUDGET=0.50", "CLAUDE_FIX_BUDGET=1.00"] ∧
    ((∃ s ∈ ["PROJECT_NAME=demo", "NUM_JOBS=0", "CLAUDE_ENABLED=false",
        "CLAUDE_AUTO_FIX=false", "CLAUDE_MAX_FIX_CYCLES=3",
        "CLAUDE_REVIEW_MODEL=sonnet", "CLAUDE_FIX_MODEL=opus",
        "CLAUDE_REVIEW_BUDGET=0.50", "CLAUDE_FIX_BUDGET=1.00"],
        lineStarts "PROJECT_NAME=" s = true) ↔
      pyTruthy (pyGetD [("project", Py.dict [("name", Py.str "demo")])]
        "project" (Py.dict [])) = true) :=
  ⟨rfl, c1_project_gated_by_truthiness _ _ rfl⟩

/-- Claim C4: output shape. For every mapping document that flattens
successfully with `n` jobs, the line list contains exactly one
`NUM_JOBS=<n>` line (also when `n = 0`), exactly `6 * n` job lines, exactly
seven automation-assistant lines, and at most one project-name line; the
returned text is the lines joined with newline separators (no trailing
newline added). -/
theorem c4_output_shape :
    ∀ (kvs : List (String × Py)) (out : List String),
      flattenLines (Py.dict kvs) = Except.ok out →
      ∃ n : Nat,
        pyLen (pyGetD kvs "jobs" (Py.list [])) = Except.ok n ∧
        ("NUM_JOBS=" ++ Nat.repr n) ∈ out ∧
        List.countP (fun s => lineStarts "NUM_JOBS=" s) out = 1 ∧
        List.countP (fun s => lineStarts "JOB_" s) out = 6 * n ∧
        List.countP (fun s => lineStarts "CLAUDE_" s) out = 7 ∧
        List.countP (fun s => lineStarts "PROJECT_NAME=" s) out ≤ 1 ∧
        (∃ blocks : List (List String),
          jobBlocksFrom 0 (pyElems (pyGetD kvs "jobs" (Py.list []))) =
            Except.ok blocks ∧
          blocks.length = n ∧
          ∀ b ∈ blocks, ∃ (i : Nat) (v1 v2 v3 v4 v5 v6 : String),
            b = ["JOB_" ++ Nat.repr i ++ "_NAME=" ++ v1,
                 "JOB_" ++ Nat.repr i ++ "_SCRIPT=" ++ v2,
                 "JOB_" ++ Nat.repr i ++ "_TYPE=" ++ v3,
                 "JOB_" ++ Nat.repr i ++ "_ARRAY=" ++ v4,
                 "JOB_" ++ Nat.repr i ++ "_DEPENDS_ON=" ++ v5,
                 "JOB_" ++ Nat.repr i ++ "_SBATCH_FLAGS=" ++ v6]) ∧
        parse_cluster_yaml (Py.dict kvs) =
          Except.ok (String.intercalate "\n" out) := by
  intro kvs out h
  obtain ⟨n, hn, hmem, hN, hJ, hC, hP⟩ := flatten_counts h
  obtain ⟨projLs, n', blocks, claudeLs, hn', hblocks, hcl, hout, hproj⟩ :=
    flattenLines_dict_ok h
  have hnn : n' = n := by
    rw [hn] at hn'
    exact (Except.ok.inj hn').symm
  refine ⟨n, hn, hmem, hN, hJ, hC, ?_, ?_, ?_⟩
  · rw [hP]
    by_cases ht : pyTruthy (pyGetD kvs "project" (Py.dict [])) = true
    · rw [if_pos ht]
    · rw [if_neg ht]; omega
  · refine ⟨blocks, hblocks, ?_, jobBlocksFrom_mem_shape hblocks⟩
    rw [jobBlocksFrom_ok_length hblocks, pyElems_length hn', hnn]
  · rw [parse_cluster_yaml, h]
    rfl

/-- Witness for C4 at a concrete one-job document. -/
theorem c4_witness :
    flattenLines (Py.dict [("jobs", Py.list [Py.dict [("name", Py.str "sim")]])]) =
      Except.ok ["NUM_JOBS=1", "JOB_0_NAME=sim", "JOB_0_SCRIPT=''",
        "JOB_0_TYPE=sbatch", "JOB_0_ARRAY=''", "JOB_0_DEPENDS_ON=''",
        "JOB_0_SBATCH_FLAGS=''", "CLAUDE_ENABLED=false", "CLAUDE_AUTO_FIX=false",
        "CLAUDE_MAX_FIX_CYCLES=3", "CLAUDE_REVIEW_MODEL=sonnet",
        "CLAUDE_FIX_MODEL=opus", "CLAUDE_REVIEW_BUDGET=0.50",
        "CLAUDE_FIX_BUDGET=1.00"] ∧
    (∃ n : Nat,
      pyLen (pyGetD [("jobs", Py.list [Py.dict [("name", Py.str "sim")]])]
        "jobs" (Py.list [])) = Except.ok n ∧
      ("NUM_JOBS=" ++ Nat.repr n) ∈ ["NUM_JOBS=1", "JOB_0_NAME=sim",
        "JOB_0_SCRIPT=''", "JOB_0_TYPE=sbatch", "JOB_0_ARRAY=''",
        "JOB_0_DEPENDS_ON=''", "JOB_0_SBATCH_FLAGS=''", "CLAUDE_ENABLED=false",
        "CLAUDE_AUTO_FIX=false", "CLAUDE_MAX_FIX_CYCLES=3",
        "CLAUDE_REVIEW_MODEL=sonnet", "CLAUDE_FIX_MODEL=opus",
        "CLAUDE_REVIEW_BUDGET=0.50", "CLAUDE_FIX_BUDGET=1.00"] ∧
      List.countP (fun s => lineStarts "NUM_JOBS=" s) ["NUM_JOBS=1",
        "JOB_0_NAME=sim", "JOB_0_SCRIPT=''", "JOB_0_TYPE=sbatch",
        "JOB_0_ARRAY=''", "JOB_0_DEPENDS_ON=''", "JOB_0_SBATCH_FLAGS=''",
        "CLAUDE_ENABLED=false", "CLAUDE_AUTO_FIX=false",
        "CLAUDE_MAX_FIX_CYCLES=3", "CLAUDE_REVIEW_MODEL=sonnet",
        "CLAUDE_FIX_MODEL=opus", "CLAUDE_REVIEW_BUDGET=0.50",
        "CLAUDE_FIX_BUDGET=1.00"] = 1 ∧
      List.countP (fun s => lineStarts "JOB_" s) ["NUM_JOBS=1",
        "JOB_0_NAME=sim", "JOB_0_SCRIPT=''", "JOB_0_TYPE=sbatch",
        "JOB_0_ARRAY=''", "JOB_0_DEPENDS_ON=''", "JOB_0_SBATCH_FLAGS=''",
        "CLAUDE_ENABLED=false", "CLAUDE_AUTO_FIX=false",
        "CLAUDE_MAX_FIX_CYCLES=3", "CLAUDE_REVIEW_MODEL=sonnet",
        "CLAUDE_FIX_MODEL=opus", "CLAUDE_REVIEW_BUDGET=0.50",
        "CLAUDE_FIX_BUDGET=1.00"] = 6 * n ∧
      List.countP (fun s => lineStarts "CLAUDE_" s) ["NUM_JOBS=1",
        "JOB_0_NAME=sim", "JOB_0_SCRIPT=''", "JOB_0_TYPE=sbatch",
        "JOB_0_ARRAY=''", "JOB_0_DEPENDS_ON=''", "JOB_0_SBATCH_FLAGS=''",
        "CLAUDE_ENABLED=false", "CLAUDE_AUTO_FIX=false",
        "CLAUDE_MAX_FIX_CYCLES=3", "CLAUDE_REVIEW_MODEL=sonnet",
        "CLAUDE_FIX_MODEL=opus", "CLAUDE_REVIEW_BUDGET=0.50",
        "CLAUDE_FIX_BUDGET=1.00"] = 7 ∧
      List.countP (fun s => lineStarts "PROJECT_NAME=" s) ["NUM_JOBS=1",
        "JOB_0_NAME=sim", "JOB_0_SCRIPT=''", "JOB_0_TYPE=sbatch",
        "JOB_0_ARRAY=''", "JOB_0_DEPENDS_ON=''", "JOB_0_SBATCH_FLAGS=''",
        "CLAUDE_ENABLED=false", "CLAUDE_AUTO_FIX=false",
        "CLAUDE_MAX_FIX_CYCLES=3", "CLAUDE_REVIEW_MODEL=sonnet",
        "CLAUDE_FIX_MODEL=opus", "CLAUDE_REVIEW_BUDGET=0.50",
        "CLAUDE_FIX_BUDGET=1.00"] ≤ 1 ∧
      (∃ blocks : List (List String),
        jobBlocksFrom 0 (pyElems (pyGetD
          [("jobs", Py.list [Py.dict [("name", Py.str "sim")]])]
          "jobs" (Py.list []))) = Except.ok blocks ∧
        blocks.length = n ∧
        ∀ b ∈ blocks, ∃ (i : Nat) (v1 v2 v3 v4 v5 v6 : String),
          b = ["JOB_" ++ Nat.repr i ++ "_NAME=" ++ v1,
               "JOB_" ++ Nat.repr i ++ "_SCRIPT=" ++ v2,
               "JOB_" ++ Nat.repr i ++ "_TYPE=" ++ v3,
               "JOB_" ++ Nat.repr i ++ "_ARRAY=" ++ v4,
               "JOB_" ++ Nat.repr i ++ "_DEPENDS_ON=" ++ v5,
               "JOB_" ++ Nat.repr i ++ "_SBATCH_FLAGS=" ++ v6]) ∧
      parse_cluster_yaml (Py.dict [("jobs", Py.list [Py.dict
        [("name", Py.str "sim")]])]) =
        Except.ok (String.intercalate "\n" ["NUM_JOBS=1", "JOB_0_NAME=sim",
          "JOB_0_SCRIPT=''", "JOB_0_TYPE=sbatch", "JOB_0_ARRAY=''",
          "JOB_0_DEPENDS_ON=''", "JOB_0_SBATCH_FLAGS=''",
          "CLAUDE_ENABLED=false", "CLAUDE_AUTO_FIX=false",
          "CLAUDE_MAX_FIX_CYCLES=3", "CLAUDE_REVIEW_MODEL=sonnet",
          "CLAUDE_FIX_MODEL=opus", "CLAUDE_REVIEW_BUDGET=0.50",
          "CLAUDE_FIX_BUDGET=1.00"])) :=
  ⟨rfl, c4_output_shape _ _ rfl⟩

/-- In a flat list made of equal-length six-line blocks (followed by any
tail), the six lines starting at offset `6 * i` are exactly the `i`-th
block. -/
lemma blocks_flatten_take :
    ∀ {blocks : List (List String)} {tail : List String},
      (∀ b ∈ blocks, b.length = 6) →
      ∀ i (hi : i < blocks.length),
        ((blocks.flatten ++ tail).drop (6 * i)).take 6 = blocks.get ⟨i, hi⟩ := by
  intro blocks
  induction blocks with
  | nil => intro tail _ i hi; exact absurd hi (by simp)
  | cons b bs ih =>
      intro tail h6 i hi
      have hb : b.length = 6 := h6 b (by simp)
      cases i with
      | zero =>
          rw [Nat.mul_zero, List.drop_zero, List.flatten_cons, List.append_assoc,
            ← hb, List.take_left]
          rfl
      | succ i =>
          have harith : 6 * (i + 1) = b.length + 6 * i := by rw [hb]; ring
          rw [List.flatten_cons, List.append_assoc, harith, List.drop_append]
          exact ih (fun c hc => h6 c (by simp [hc])) i (Nat.lt_of_succ_lt_succ hi)

/-- Claim C5: index-order invariant. For every mapping document whose `jobs`
value is a sequence and which flattens successfully, and for every position
`i` in that sequence, the six lines at offset `pl + 1 + 6 * i` of the output
(`pl ≤ 1` the number of project lines) are exactly the block computed from
the job at position `i` with emitted index `i`, whose first line is named
`JOB_<i>_NAME`: the numeric index embedded in the variable names equals the
job's zero-based position, jobs are emitted in document order, and nothing
is reordered, filtered or deduplicated. -/
theorem c5_index_order :
    ∀ (kvs : List (String × Py)) (js : List Py) (out : List String),
      pyGetD kvs "jobs" (Py.list []) = Py.list js →
      flattenLines (Py.dict kvs) = Except.ok out →
      ∃ pl : Nat, pl ≤ 1 ∧
        ∀ (i : Nat) (hi : i < js.length),
          ∃ ls : List String,
            jobBlock i (js.get ⟨i, hi⟩) = Except.ok ls ∧
            (out.drop (pl + 1 + 6 * i)).take 6 = ls ∧
            lineStarts ("JOB_" ++ Nat.repr i ++ "_NAME=") (ls.headD "") = true := by
  intro kvs js out hj h
  obtain ⟨projLs, n, blocks, claudeLs, hn, hblocks, hcl, hout, hproj⟩ :=
    flattenLines_dict_ok h
  rw [hj] at hblocks
  have hjs : pyElems (Py.list js) = js := rfl
  rw [hjs] at hblocks
  have hpl : projLs.length ≤ 1 := by
    by_cases ht : pyTruthy (pyGetD kvs "project" (Py.dict [])) = true
    · rw [if_pos ht] at hproj
      obtain ⟨nm, hnm⟩ := hproj
      rw [hnm]
      exact Nat.le_refl 1
    · rw [if_neg ht] at hproj
      rw [hproj]
      exact Nat.zero_le 1
  have h6 : ∀ b ∈ blocks, b.length = 6 := by
    intro b hb
    obtain ⟨i, v1, v2, v3, v4, v5, v6, rfl⟩ := jobBlocksFrom_mem_shape hblocks b hb
    rfl
  have hlen : blocks.length = js.length := jobBlocksFrom_ok_length hblocks
  refine ⟨projLs.length, hpl, ?_⟩
  intro i hi
  have hi' : i < blocks.length := hlen ▸ hi
  have hget := jobBlocksFrom_ok_get hblocks i hi hi'
  rw [Nat.zero_add] at hget
  refine ⟨blocks.get ⟨i, hi'⟩, hget, ?_, ?_⟩
  · rw [hout]
    have hdrop1 : (projLs ++ (("NUM_JOBS=" ++ Nat.repr n) ::
        (blocks.flatten ++ claudeLs))).drop (projLs.length + 1 + 6 * i) =
        (blocks.flatten ++ claudeLs).drop (6 * i) := by
      rw [Nat.add_assoc, List.drop_append, Nat.add_comm 1 (6 * i),
        List.drop_succ_cons]
    rw [hdrop1]
    exact blocks_flatten_take h6 i hi'
  · obtain ⟨v1, v2, v3, v4, v5, v6, hform⟩ := jobBlock_ok hget
    rw [hform]
    exact lineStarts_append_self ("JOB_" ++ Nat.repr i ++ "_NAME=") v1

/-- Witness for C5 at a concrete two-job document. -/
theorem c5_witness :
    pyGetD [("jobs", Py.list [Py.dict [("name", Py.str "a")],
      Py.dict [("name", Py.str "b")]])] "jobs" (Py.list []) =
      Py.list [Py.dict [("name", Py.str "a")], Py.dict [("name", Py.str "b")]] ∧
    flattenLines (Py.dict [("jobs", Py.list [Py.dict [("name", Py.str "a")],
      Py.dict [("name", Py.str "b")]])]) =
      Except.ok ["NUM_JOBS=2", "JOB_0_NAME=a", "JOB_0_SCRIPT=''",
        "JOB_0_TYPE=sbatch", "JOB_0_ARRAY=''", "JOB_0_DEPENDS_ON=''",
        "JOB_0_SBATCH_FLAGS=''", "JOB_1_NAME=b", "JOB_1_SCRIPT=''",
        "JOB_1_TYPE=sbatch", "JOB_1_ARRAY=''", "JOB_1_DEPENDS_ON=''",
        "JOB_1_SBATCH_FLAGS=''", "CLAUDE_ENABLED=false", "CLAUDE_AUTO_FIX=false",
        "CLAUDE_MAX_FIX_CYCLES=3", "CLAUDE_REVIEW_MODEL=sonnet",
        "CLAUDE_FIX_MODEL=opus", "CLAUDE_REVIEW_BUDGET=0.50",
        "CLAUDE_FIX_BUDGET=1.00"] ∧
    (∃ pl : Nat, pl ≤ 1 ∧
      ∀ (i : Nat) (hi : i < ([Py.dict [("name", Py.str "a")],
          Py.dict [("name", Py.str "b")]] : List Py).length),
        ∃ ls : List String,
          jobBlock i (([Py.dict [("name", Py.str "a")],
            Py.dict [("name", Py.str "b")]] : List Py).get ⟨i, hi⟩) = Except.ok ls ∧
          ((["NUM_JOBS=2", "JOB_0_NAME=a", "JOB_0_SCRIPT=''",
            "JOB_0_TYPE=sbatch", "JOB_0_ARRAY=''", "JOB_0_DEPENDS_ON=''",
            "JOB_0_SBATCH_FLAGS=''", "JOB_1_NAME=b", "JOB_1_SCRIPT=''",
            "JOB_1_TYPE=sbatch", "JOB_1_ARRAY=''", "JOB_1_DEPENDS_ON=''",
            "JOB_1_SBATCH_FLAGS=''", "CLAUDE_ENABLED=false",
            "CLAUDE_AUTO_FIX=false", "CLAUDE_MAX_FIX_CYCLES=3",
            "CLAUDE_REVIEW_MODEL=sonnet", "CLAUDE_FIX_MODEL=opus",
            "CLAUDE_REVIEW_BUDGET=0.50", "CLAUDE_FIX_BUDGET=1.00"] :
            List String).drop (pl + 1 + 6 * i)).take 6 = ls ∧
          lineStarts ("JOB_" ++ Nat.repr i ++ "_NAME=") (ls.headD "") = true) :=
  ⟨rfl, rfl, c5_index_order [("jobs", Py.list [Py.dict [("name", Py.str "a")],
    Py.dict [("name", Py.str "b")]])] _ _ rfl rfl⟩

/-- Joining a sequence of strings succeeds and yields the separator-join in
order. -/
lemma pyJoin_strs (sep : String) (ss : List String) :
    pyJoin sep (Py.list (ss.map Py.str)) = Except.ok (String.intercalate sep ss) := by
  have hmap : (ss.map Py.str).mapM joinItem = Except.ok ss := by
    induction ss with
    | nil => rfl
    | cons s ss ih =>
        rw [List.map_cons, List.mapM_cons, ih]
        rfl
  rw [pyJoin, hmap]
  rfl

/-- Claim C6: `depends_on` normalisation. (a) With `depends_on` absent, the
fifth job line is `JOB_<i>_DEPENDS_ON=` followed by the escaped empty
string, whose shell value is empty. (b) A bare-string `depends_on` produces
exactly the same job block as a one-element sequence holding that string,
whenever all other keys agree. (c) A sequence of strings is emitted as the
escaped comma-join of its elements in order. -/
theorem c6_depends_on_normalization :
    (∀ (i : Nat) (jkvs : List (String × Py)) (ls : List String),
      List.lookup "depends_on" jkvs = Option.none →
      jobBlock i (Py.dict jkvs) = Except.ok ls →
      ls.get? 4 = some ("JOB_" ++ Nat.repr i ++ "_DEPENDS_ON=" ++
        shell_escape (Py.str "")) ∧
      shWordEval (shell_escape (Py.str "")) = some "") ∧
    (∀ (i : Nat) (j1 j2 : List (String × Py)) (s : String),
      List.lookup "depends_on" j1 = some (Py.str s) →
      List.lookup "depends_on" j2 = some (Py.list [Py.str s]) →
      (∀ k : String, k ≠ "depends_on" → List.lookup k j1 = List.lookup k j2) →
      jobBlock i (Py.dict j1) = jobBlock i (Py.dict j2)) ∧
    (∀ (i : Nat) (jkvs : List (String × Py)) (ss : List String)
      (ls : List String),
      List.lookup "depends_on" jkvs = some (Py.list (ss.map Py.str)) →
      jobBlock i (Py.dict jkvs) = Except.ok ls →
      ls.get? 4 = some ("JOB_" ++ Nat.repr i ++ "_DEPENDS_ON=" ++
        shell_escape (Py.str (String.intercalate "," ss)))) := by
  refine ⟨?_, ?_, ?_⟩
  · intro i jkvs ls hlk h
    rw [jobBlock] at h
    obtain ⟨name, hname, h⟩ := bind_ok h
    obtain ⟨script, hscript, h⟩ := bind_ok h
    obtain ⟨ty, hty, h⟩ := bind_ok h
    obtain ⟨arr, harr, h⟩ := bind_ok h
    obtain ⟨dependsRaw, hdr, h⟩ := bind_ok h
    have hdr' : dependsRaw = Py.list [] := by
      rw [← (Except.ok.inj hdr : (List.lookup "depends_on" jkvs).getD (Py.list []) =
        dependsRaw), hlk]
      rfl
    subst hdr'
    obtain ⟨dep, hdep, h⟩ := bind_ok h
    have hdep' : dep = "" := (Except.ok.inj hdep).symm
    subst hdep'
    obtain ⟨extra, hextra, h⟩ := bind_ok h
    rw [← Except.ok.inj h]
    exact ⟨rfl, rfl⟩
  · intro i j1 j2 s h1 h2 hother
    have e1 := hother "name" (by decide)
    have e2 := hother "script" (by decide)
    have e3 := hother "type" (by decide)
    have e4 := hother "array" (by decide)
    have e5 := hother "sbatch_flags" (by decide)
    simp only [jobBlock, Bind.bind, Except.bind, pyGet, h1, h2, e1, e2, e3, e4, e5,
      Option.getD_some]
  · intro i jkvs ss ls hlk h
    rw [jobBlock] at h
    obtain ⟨name, hname, h⟩ := bind_ok h
    obtain ⟨script, hscript, h⟩ := bind_ok h
    obtain ⟨ty, hty, h⟩ := bind_ok h
    obtain ⟨arr, harr, h⟩ := bind_ok h
    obtain ⟨dependsRaw, hdr, h⟩ := bind_ok h
    have hdr' : dependsRaw = Py.list (ss.map Py.str) := by
      rw [← (Except.ok.inj hdr : (List.lookup "depends_on" jkvs).getD (Py.list []) =
        dependsRaw), hlk]
      rfl
    subst hdr'
    obtain ⟨dep, hdep, h⟩ := bind_ok h
    have hdep' : dep = String.intercalate "," ss := by
      have hmatch : (match Py.list (ss.map Py.str) with
          | Py.str s => Py.list [Py.str s]
          | v => v) = Py.list (ss.map Py.str) := by
        cases hs : ss.map Py.str <;> rfl
      rw [hmatch, pyJoin_strs] at hdep
      exact (Except.ok.inj hdep).symm
    subst hdep'
    obtain ⟨extra, hextra, h⟩ := bind_ok h
    rw [← Except.ok.inj h]
    rfl

/-- Witness for C6 at concrete jobs: (a) a job without `depends_on`; (b) the
bare string `"a"` versus the sequence `["a"]`; (c) the sequence
`["a", "b"]`. -/
theorem c6_witness :
    (([ "JOB_0_NAME=x", "JOB_0_SCRIPT=''", "JOB_0_TYPE=sbatch",
        "JOB_0_ARRAY=''", "JOB_0_DEPENDS_ON=''",
        "JOB_0_SBATCH_FLAGS=''" ] : List String).get? 4 =
      some ("JOB_" ++ Nat.repr 0 ++ "_DEPENDS_ON=" ++ shell_escape (Py.str "")) ∧
      shWordEval (shell_escape (Py.str "")) = some "") ∧
    jobBlock 0 (Py.dict [("depends_on", Py.str "a")]) =
      jobBlock 0 (Py.dict [("depends_on", Py.list [Py.str "a"])]) ∧
    (([ "JOB_0_NAME=job_0", "JOB_0_SCRIPT=''", "JOB_0_TYPE=sbatch",
        "JOB_0_ARRAY=''", "JOB_0_DEPENDS_ON=a,b",
        "JOB_0_SBATCH_FLAGS=''" ] : List String).get? 4 =
      some ("JOB_" ++ Nat.repr 0 ++ "_DEPENDS_ON=" ++
        shell_escape (Py.str (String.intercalate "," ["a", "b"])))) :=
  ⟨c6_depends_on_normalization.1 0 [("name", Py.str "x")] _ rfl rfl,
   c6_depends_on_normalization.2.1 0 [("depends_on", Py.str "a")]
     [("depends_on", Py.list [Py.str "a"])] "a" rfl rfl
     (fun k hk => by
        simp only [List.lookup]
        rw [show (k == "depends_on") = false from beq_eq_false_iff_ne.mpr hk]),
   c6_depends_on_normalization.2.2 0 [("depends_on", Py.list [Py.str "a", Py.str "b"])]
     ["a", "b"] _ rfl rfl⟩

/-- The seven default automation-assistant lines. -/
def claudeDefaultLines : List String :=
  ["CLAUDE_ENABLED=false", "CLAUDE_AUTO_FIX=false", "CLAUDE_MAX_FIX_CYCLES=3",
   "CLAUDE_REVIEW_MODEL=sonnet", "CLAUDE_FIX_MODEL=opus",
   "CLAUDE_REVIEW_BUDGET=0.50", "CLAUDE_FIX_BUDGET=1.00"]

/-- Claim C7: with the `claude` section absent, flattening still ends with
all seven automation-assistant lines carrying the documented defaults
(`CLAUDE_ENABLED=false`, `CLAUDE_AUTO_FIX=false`, `CLAUDE_MAX_FIX_CYCLES=3`,
`CLAUDE_REVIEW_MODEL=sonnet`, `CLAUDE_FIX_MODEL=opus`,
`CLAUDE_REVIEW_BUDGET=0.50`, `CLAUDE_FIX_BUDGET=1.00`); and boolean field
values are rendered as the lowercase literals `true`/`false` before
escaping. -/
theorem c7_claude_defaults :
    (∀ (kvs : List (String × Py)) (out : List String),
      List.lookup "claude" kvs = Option.none →
      flattenLines (Py.dict kvs) = Except.ok out →
      ∃ pre, out = pre ++ claudeDefaultLines) ∧
    (∀ (ckvs : List (String × Py)) (b : Bool),
      List.lookup "enabled" ckvs = some (Py.bool b) →
      ∃ ls, claudeBlock (Py.dict ckvs) = Except.ok ls ∧
        ls.get? 0 = some ("CLAUDE_ENABLED=" ++ (if b then "true" else "false"))) ∧
    (∀ (ckvs : List (String × Py)) (b : Bool),
      List.lookup "auto_fix" ckvs = some (Py.bool b) →
      ∃ ls, claudeBlock (Py.dict ckvs) = Except.ok ls ∧
        ls.get? 1 = some ("CLAUDE_AUTO_FIX=" ++ (if b then "true" else "false"))) := by
  refine ⟨?_, ?_, ?_⟩
  · intro kvs out hlk h
    obtain ⟨projLs, n, blocks, claudeLs, hn, hblocks, hcl, hout, hproj⟩ :=
      flattenLines_dict_ok h
    have hd : pyGetD kvs "claude" (Py.dict []) = Py.dict [] := by
      rw [pyGetD, hlk]
      rfl
    rw [hd] at hcl
    have hdef : claudeLs = claudeDefaultLines :=
      (Except.ok.inj hcl).symm
    refine ⟨projLs ++ (("NUM_JOBS=" ++ Nat.repr n) :: blocks.flatten), ?_⟩
    rw [hout, hdef, List.append_assoc, List.cons_append]
  · intro ckvs b hlk
    refine ⟨_, rfl, ?_⟩
    rw [hlk]
    cases b <;> rfl
  · intro ckvs b hlk
    refine ⟨_, rfl, ?_⟩
    rw [hlk]
    cases b <;> rfl

/-- Witness for C7: an empty document gets the seven default lines; concrete
boolean fields render lowercase. -/
theorem c7_witness :
    (∃ pre, (["NUM_JOBS=0"] ++ claudeDefaultLines : List String) =
      pre ++ claudeDefaultLines) ∧
    (∃ ls, claudeBlock (Py.dict [("enabled", Py.bool true)]) = Except.ok ls ∧
      ls.get? 0 = some ("CLAUDE_ENABLED=" ++ (if true then "true" else "false"))) ∧
    (∃ ls, claudeBlock (Py.dict [("auto_fix", Py.bool true)]) = Except.ok ls ∧
      ls.get? 1 = some ("CLAUDE_AUTO_FIX=" ++ (if true then "true" else "false"))) :=
  ⟨c7_claude_defaults.1 [] (["NUM_JOBS=0"] ++ claudeDefaultLines) rfl rfl,
   c7_claude_defaults.2.1 [("enabled", Py.bool true)] true rfl,
   c7_claude_defaults.2.2 [("auto_fix", Py.bool true)] true rfl⟩

/-- Whether a value is a Python mapping. -/
def isDict : Py → Bool
  | Py.dict _ => true
  | _ => false

/-- Claim C8: process-level behaviour. Success exits 0 with the flattened
output (plus the `print` newline) on standard output and nothing on standard
error; a missing file and a parse failure both exit 1 with a human-readable
message on standard error and no standard-output content. -/
theorem c8_process_exit_behaviour :
    (∀ (prog path : String) (v : Py) (out : String),
      parse_cluster_yaml v = Except.ok out →
      runMain [prog, path] (LoadResult.value v) =
        MainResult.exited 0 (out ++ "\n") "") ∧
    (∀ prog path : String,
      runMain [prog, path] LoadResult.notFound =
        MainResult.exited 1 "" ("Error: " ++ path ++ " not found\n")) ∧
    (∀ prog path m : String,
      runMain [prog, path] (LoadResult.yamlError m) =
        MainResult.exited 1 "" ("Error parsing YAML: " ++ m ++ "\n")) := by
  refine ⟨?_, fun prog path => rfl, fun prog path m => rfl⟩
  intro prog path v out h
  simp only [runMain, h]

/-- Witness for C8 at a concrete empty mapping document. -/
theorem c8_witness :
    parse_cluster_yaml (Py.dict []) = Except.ok
      ("NUM_JOBS=0\nCLAUDE_ENABLED=false\nCLAUDE_AUTO_FIX=false\nCLAUDE_MAX_FIX_CYCLES=3\nCLAUDE_REVIEW_MODEL=sonnet\nCLAUDE_FIX_MODEL=opus\nCLAUDE_REVIEW_BUDGET=0.50\nCLAUDE_FIX_BUDGET=1.00") ∧
    runMain ["prog", "cluster.yaml"] (LoadResult.value (Py.dict [])) =
      MainResult.exited 0
        ("NUM_JOBS=0\nCLAUDE_ENABLED=false\nCLAUDE_AUTO_FIX=false\nCLAUDE_MAX_FIX_CYCLES=3\nCLAUDE_REVIEW_MODEL=sonnet\nCLAUDE_FIX_MODEL=opus\nCLAUDE_REVIEW_BUDGET=0.50\nCLAUDE_FIX_BUDGET=1.00" ++ "\n") "" ∧
    runMain ["prog", "cluster.yaml"] LoadResult.notFound =
      MainResult.exited 1 "" ("Error: " ++ "cluster.yaml" ++ " not found\n") ∧
    runMain ["prog", "cluster.yaml"] (LoadResult.yamlError "boom") =
      MainResult.exited 1 "" ("Error parsing YAML: " ++ "boom" ++ "\n") :=
  ⟨rfl,
   c8_process_exit_behaviour.1 "prog" "cluster.yaml" (Py.dict []) _ rfl,
   c8_process_exit_behaviour.2.1 "prog" "cluster.yaml",
   c8_process_exit_behaviour.2.2 "prog" "cluster.yaml" "boom"⟩

/-- Claim C2, counterexample: a document whose content parses to `null`
(so `yaml.safe_load` returns `None`, not a mapping) does not fail with the
parse-error path (exit 1 with the parser's message on standard error); the
process instead crashes with an uncaught `AttributeError`. -/
theorem c2_counterexample :
    runMain ["prog", "cluster.yaml"] (LoadResult.value Py.none) =
      MainResult.crashed (PyErr.attributeError
        "\x27NoneType\x27 object has no attribute \x27get\x27") "" := rfl

/-- Claim C2 (amended): only syntactically malformed content — where the
YAML parser itself raises — is reported to standard error with the
underlying parser's message and exits with status 1; content that parses
successfully to a non-mapping (a scalar or null) bypasses both recognized
error paths: flatten raises an uncaught `AttributeError` and the process
crashes with no standard output. -/
theorem c2_parse_error_only_for_yaml_errors :
    (∀ prog path m : String,
      runMain [prog, path] (LoadResult.yamlError m) =
        MainResult.exited 1 "" ("Error parsing YAML: " ++ m ++ "\n")) ∧
    (∀ (prog path : String) (v : Py), isDict v = false →
      runMain [prog, path] (LoadResult.value v) =
        MainResult.crashed (PyErr.attributeError
          ("\x27" ++ pyTypeName v ++ "\x27 object has no attribute \x27get\x27")) "") := by
  refine ⟨fun prog path m => rfl, ?_⟩
  intro prog path v hv
  cases v with
  | dict kvs => exact absurd hv (by simp [isDict])
  | none => rfl
  | bool b => rfl
  | int n => rfl
  | float m e => rfl
  | str s => rfl
  | list xs => rfl

/-- Witness for C2 (amended): a malformed document takes the handled path; a
document parsing to a bare string crashes. -/
theorem c2_amended_witness :
    runMain ["prog", "cluster.yaml"] (LoadResult.yamlError "boom") =
      MainResult.exited 1 "" ("Error parsing YAML: " ++ "boom" ++ "\n") ∧
    runMain ["prog", "cluster.yaml"] (LoadResult.value (Py.str "hello")) =
      MainResult.crashed (PyErr.attributeError
        ("\x27" ++ pyTypeName (Py.str "hello") ++
          "\x27 object has no attribute \x27get\x27")) "" :=
  ⟨c2_parse_error_only_for_yaml_errors.1 "prog" "cluster.yaml" "boom",
   c2_parse_error_only_for_yaml_errors.2 "prog" "cluster.yaml" (Py.str "hello") rfl⟩

/-- The loop body on a job that is not a mapping raises `AttributeError`
(the first `.get` fails), whatever the index. -/
lemma jobBlock_not_dict (i : Nat) {v : Py} (hv : isDict v = false) :
    jobBlock i v = Except.error (PyErr.attributeError
      ("\x27" ++ pyTypeName v ++ "\x27 object has no attribute \x27get\x27")) := by
  cases v with
  | dict kvs => exact absurd hv (by simp [isDict])
  | none => rfl
  | bool b => rfl
  | int n => rfl
  | float m e => rfl
  | str s => rfl
  | list xs => rfl

/-- If the blocks of an initial segment of the job list all succeed and the
next job's block raises, the whole loop raises that exception (the first
failing job wins). -/
lemma jobBlocksFrom_append_error :
    ∀ {start : Nat} {pre : List Py} {bs : List (List String)} {v : Py}
      {rest : List Py} {e : PyErr},
      jobBlocksFrom start pre = Except.ok bs →
      jobBlock (start + pre.length) v = Except.error e →
      jobBlocksFrom start (pre ++ v :: rest) = Except.error e := by
  intro start pre
  induction pre generalizing start with
  | nil =>
      intro bs v rest e _ herr
      simp only [List.length_nil, Nat.add_zero] at herr
      rw [List.nil_append, jobBlocksFrom, herr]
      rfl
  | cons j pre ih =>
      intro bs v rest e hok herr
      rw [jobBlocksFrom] at hok
      obtain ⟨b, hb, hok⟩ := bind_ok hok
      obtain ⟨bs', hbs, _⟩ := bind_ok hok
      have herr' : jobBlock (start + 1 + pre.length) v = Except.error e := by
        have harith : start + 1 + pre.length = start + (j :: pre).length := by
          simp only [List.length_cons]
          omega
        rw [harith]
        exact herr
      rw [List.cons_append, jobBlocksFrom, hb, ih hbs herr']
      rfl

/-- Claim C9, counterexample: a mapping in which `jobs` is present with a
null value but the `project` value is a truthy non-mapping. The claim says
every such document raises an uncaught `TypeError` (`len` of `None`); the
code instead raises `AttributeError` at `project.get`, before `len(jobs)`
is ever reached. -/
theorem c9_counterexample :
    flattenLines (Py.dict [("project", Py.str "x"), ("jobs", Py.none)]) =
      Except.error (PyErr.attributeError
        "\x27str\x27 object has no attribute \x27get\x27") ∧
    flattenLines (Py.dict [("project", Py.str "x"), ("jobs", Py.none)]) ≠
      Except.error (PyErr.typeError
        "object of type \x27NoneType\x27 has no len()") :=
  ⟨rfl, fun hc => PyErr.noConfusion (Except.error.inj hc)⟩

/-- Claim C9 (amended): defaults apply only to absent keys, never to keys
present with a null value, and the failure surfacing is the first uncaught
exception in processing order. In any mapping whose project phase does not
itself raise, a `jobs` key present with null raises an uncaught `TypeError`
(`len` of `None`); if additionally the whole jobs phase succeeds, a `claude`
key present with null raises an uncaught `AttributeError`; a jobs element
that is not a mapping — at any position whose predecessors all process
successfully — raises an uncaught `AttributeError`; and every flatten
exception bypasses both recognized error paths (NotFound, ParseError),
crashing the process. -/
theorem c9_null_values_bypass_error_paths_amended :
    (∀ (kvs : List (String × Py)) (pls : List String),
      projectLines (pyGetD kvs "project" (Py.dict [])) = Except.ok pls →
      List.lookup "jobs" kvs = some Py.none →
      flattenLines (Py.dict kvs) = Except.error (PyErr.typeError
        "object of type \x27NoneType\x27 has no len()")) ∧
    (∀ (kvs : List (String × Py)) (pls : List String) (n : Nat)
      (bs : List (List String)),
      projectLines (pyGetD kvs "project" (Py.dict [])) = Except.ok pls →
      pyLen (pyGetD kvs "jobs" (Py.list [])) = Except.ok n →
      jobBlocksFrom 0 (pyElems (pyGetD kvs "jobs" (Py.list []))) = Except.ok bs →
      List.lookup "claude" kvs = some Py.none →
      flattenLines (Py.dict kvs) = Except.error (PyErr.attributeError
        "\x27NoneType\x27 object has no attribute \x27get\x27")) ∧
    (∀ (kvs : List (String × Py)) (pls : List String) (pre : List Py) (v : Py)
      (rest : List Py) (bs : List (List String)),
      projectLines (pyGetD kvs "project" (Py.dict [])) = Except.ok pls →
      List.lookup "jobs" kvs = some (Py.list (pre ++ v :: rest)) →
      jobBlocksFrom 0 pre = Except.ok bs →
      isDict v = false →
      flattenLines (Py.dict kvs) = Except.error (PyErr.attributeError
        ("\x27" ++ pyTypeName v ++ "\x27 object has no attribute \x27get\x27"))) ∧
    (∀ (prog path : String) (v : Py) (e : PyErr),
      flattenLines v = Except.error e →
      runMain [prog, path] (LoadResult.value v) = MainResult.crashed e "") := by
  refine ⟨?_, ?_, ?_, ?_⟩
  · intro kvs pls hproj hlk
    simp only [pyGetD] at hproj
    simp only [flattenLines, Bind.bind, Except.bind, pyGet, hproj, hlk,
      Option.getD_some]
    rfl
  · intro kvs pls n bs hproj hlen hblocks hlk
    simp only [pyGetD] at hproj hlen hblocks
    simp only [flattenLines, Bind.bind, Except.bind, pyGet, hproj, hlen, hblocks,
      hlk, Option.getD_some]
    rfl
  · intro kvs pls pre v rest bs hproj hlk hpre hv
    have hjobs : jobBlocksFrom 0 (pre ++ v :: rest) = Except.error
        (PyErr.attributeError
          ("\x27" ++ pyTypeName v ++ "\x27 object has no attribute \x27get\x27")) :=
      jobBlocksFrom_append_error hpre (jobBlock_not_dict (0 + pre.length) hv)
    simp only [pyGetD] at hproj
    simp only [flattenLines, Bind.bind, Except.bind, pyGet, hproj, hlk,
      Option.getD_some, pyLen, pyElems, hjobs]
  · intro prog path v e h
    simp only [runMain, parse_cluster_yaml, h, Except.map]

/-- Witness for C9 (amended) at concrete documents inside the claim's scope:
`project: {name: demo}` with `jobs: null`; a job list followed by
`claude: null`; a non-mapping element in second position of `jobs`; and the
resulting process crash. -/
theorem c9_amended_witness :
    flattenLines (Py.dict [("project", Py.dict [("name", Py.str "demo")]),
        ("jobs", Py.none)]) =
      Except.error (PyErr.typeError "object of type \x27NoneType\x27 has no len()") ∧
    flattenLines (Py.dict [("jobs", Py.list [Py.dict []]), ("claude", Py.none)]) =
      Except.error (PyErr.attributeError
        "\x27NoneType\x27 object has no attribute \x27get\x27") ∧
    flattenLines (Py.dict [("jobs", Py.list [Py.dict [], Py.str "x"])]) =
      Except.error (PyErr.attributeError
        ("\x27" ++ pyTypeName (Py.str "x") ++ "\x27 object has no attribute \x27get\x27")) ∧
    runMain ["prog", "cluster.yaml"]
        (LoadResult.value (Py.dict [("jobs", Py.none)])) =
      MainResult.crashed (PyErr.typeError
        "object of type \x27NoneType\x27 has no len()") "" :=
  ⟨c9_null_values_bypass_error_paths_amended.1
     [("project", Py.dict [("name", Py.str "demo")]), ("jobs", Py.none)] _ rfl rfl,
   c9_null_values_bypass_error_paths_amended.2.1
     [("jobs", Py.list [Py.dict []]), ("claude", Py.none)] _ 1 _ rfl rfl rfl rfl,
   c9_null_values_bypass_error_paths_amended.2.2.1
     [("jobs", Py.list [Py.dict [], Py.str "x"])] _ [Py.dict []] (Py.str "x") [] _
     rfl rfl rfl rfl,
   c9_null_values_bypass_error_paths_amended.2.2.2 "prog" "cluster.yaml"
     (Py.dict [("jobs", Py.none)]) _ rfl⟩

/-- Claim C10: scalar rendering. The `NUM_JOBS` value is the raw decimal
representation of the length of the jobs sequence; every other value is
converted with `str()` before quoting, so an integer `max_fix_cycles` of `3`
emits the token `3`, and a numeric budget written `0.50` in the document is
emitted as `0.5`, not `0.50`. -/
theorem c10_scalar_rendering :
    (∀ (kvs : List (String × Py)) (out : List String) (n : Nat),
      flattenLines (Py.dict kvs) = Except.ok out →
      pyLen (pyGetD kvs "jobs" (Py.list [])) = Except.ok n →
      ("NUM_JOBS=" ++ Nat.repr n) ∈ out) ∧
    (∀ v : Py, v ≠ Py.none → shell_escape v = shlexQuote (pyStr v)) ∧
    (∀ (ckvs : List (String × Py)) (m : Int),
      List.lookup "max_fix_cycles" ckvs = some (Py.int m) →
      ∃ ls, claudeBlock (Py.dict ckvs) = Except.ok ls ∧
        ls.get? 2 = some ("CLAUDE_MAX_FIX_CYCLES=" ++ shlexQuote (Int.repr m))) ∧
    (∀ ckvs : List (String × Py),
      List.lookup "review_budget" ckvs = some (Py.float 50 2) →
      ∃ ls, claudeBlock (Py.dict ckvs) = Except.ok ls ∧
        ls.get? 5 = some "CLAUDE_REVIEW_BUDGET=0.5" ∧
        ls.get? 5 ≠ some "CLAUDE_REVIEW_BUDGET=0.50") := by
  refine ⟨?_, ?_, ?_, ?_⟩
  · intro kvs out n h hn
    obtain ⟨n', hn', hmem, _⟩ := flatten_counts h
    have : n = n' := by
      rw [hn] at hn'
      exact Except.ok.inj hn'
    rw [this]
    exact hmem
  · intro v hv
    cases v with
    | none => exact absurd rfl hv
    | bool b => rfl
    | int n => rfl
    | float m e => rfl
    | str s => rfl
    | list xs => rfl
    | dict kvs => rfl
  · intro ckvs m hlk
    refine ⟨_, rfl, ?_⟩
    rw [hlk]
    rfl
  · intro ckvs hlk
    refine ⟨_, rfl, ?_, ?_⟩
    · rw [hlk]
      rfl
    · rw [hlk]
      intro hc
      exact absurd (Option.some.inj hc) (by decide)

/-- Witness for C10 at a concrete document: one job, `max_fix_cycles: 3`,
`review_budget: 0.50`. -/
theorem c10_witness :
    ("NUM_JOBS=" ++ Nat.repr 1) ∈ (["NUM_JOBS=1", "JOB_0_NAME=job_0",
      "JOB_0_SCRIPT=''", "JOB_0_TYPE=sbatch", "JOB_0_ARRAY=''",
      "JOB_0_DEPENDS_ON=''", "JOB_0_SBATCH_FLAGS=''", "CLAUDE_ENABLED=false",
      "CLAUDE_AUTO_FIX=false", "CLAUDE_MAX_FIX_CYCLES=3",
      "CLAUDE_REVIEW_MODEL=sonnet", "CLAUDE_FIX_MODEL=opus",
      "CLAUDE_REVIEW_BUDGET=0.50", "CLAUDE_FIX_BUDGET=1.00"] : List String) ∧
    shell_escape (Py.int 3) = shlexQuote (pyStr (Py.int 3)) ∧
    (∃ ls, claudeBlock (Py.dict [("max_fix_cycles", Py.int 3)]) = Except.ok ls ∧
      ls.get? 2 = some ("CLAUDE_MAX_FIX_CYCLES=" ++ shlexQuote (Int.repr 3))) ∧
    (∃ ls, claudeBlock (Py.dict [("review_budget", Py.float 50 2)]) = Except.ok ls ∧
      ls.get? 5 = some "CLAUDE_REVIEW_BUDGET=0.5" ∧
      ls.get? 5 ≠ some "CLAUDE_REVIEW_BUDGET=0.50") :=
  ⟨c10_scalar_rendering.1 [("jobs", Py.list [Py.dict []])] _ 1 rfl rfl,
   c10_scalar_rendering.2.1 (Py.int 3) (by simp),
   c10_scalar_rendering.2.2.1 [("max_fix_cycles", Py.int 3)] 3 rfl,
   c10_scalar_rendering.2.2.2 [("review_budget", Py.float 50 2)] rfl⟩

end ClusterYaml
